import Mathlib

/-!
Shallow embedding of the NEXUS PORTRAIT demo web application
(React/Vite frontend + FastAPI/Gemini backend).

Embedded source files:
* `frontend/src/services/api.ts` — `generateImage`, `healthCheck`;
* `frontend/src/screens/DetectionScreen.tsx` — `processFile`, `handleScan`
  and its `setTimeout` timeline, `StepItem` logic;
* `frontend/src/screens/CreationScreen.tsx` — `handleFiles`, `handleEmbed`,
  `removeImage`, `reset`, and the image chosen for display by the render;
* `App.tsx` — the route table;
* the backend endpoints (their Python source is not part of the sources;
  they are modelled from the spec where a claim needs them).

Browser `File` objects are opaque blobs; we model them by their name and
content.  A `fetch` call is modelled by an oracle mapping the request to an
outcome (network failure, non-ok HTTP response, or an ok response with a
parsed body), and functions that perform requests also return the list of
requests they issued, so that "no network request happens" is a statement
about that list.
-/

/-- A browser `File`: opaque content plus a name. -/
structure WebFile where
  name : String
  content : String
deriving DecidableEq, Repr

/-- `URL.createObjectURL(file)` — an opaque blob URL derived from the file. -/
def objectURL (f : WebFile) : String :=
  "blob:" ++ f.name

/-- A value appended to a `FormData`: either a file or a text field. -/
inductive FormValue
  | file (f : WebFile)
  | text (s : String)
deriving DecidableEq, Repr

/-- One `formData.append(name, value)` entry. -/
structure FormField where
  name : String
  value : FormValue
deriving DecidableEq, Repr

/-- An HTTP request as issued by `fetch` in `api.ts`. -/
structure Request where
  url : String
  method : String
  fields : List FormField
deriving DecidableEq, Repr

/-- `const API_BASE = "http://localhost:8000"` in `api.ts`. -/
def API_BASE : String := "http://localhost:8000"

/-- Outcome of an awaited `fetch`: the promise rejects (network failure),
or resolves to a non-ok response (carrying `statusText` and the `detail`
field of its JSON body when that parses and has one), or resolves to an ok
response whose JSON body parses to `α`. -/
inductive FetchOutcome (α : Type)
  | failure (msg : String)
  | errorResponse (statusText : String) (detail : Option String)
  | success (body : α)
deriving DecidableEq, Repr

/-- The JSON body of a successful `/api/generate-image` response
(`GenerateImageResponse` in `api.ts`). -/
structure GenerateImageResponse where
  image : String
  mock_mode : Bool
  watermark_embedded : Bool
deriving DecidableEq, Repr

/-- JavaScript's `String.prototype.trim()`: strip leading and trailing
whitespace.  (Defined over the character list so that it evaluates by
kernel reduction.) -/
def trimJS (s : String) : String :=
  ⟨((s.data.dropWhile Char.isWhitespace).reverse.dropWhile Char.isWhitespace).reverse⟩

/-- Validation and request construction of `generateImage` in `api.ts`:
the two length guards throw before any `fetch`; otherwise the `FormData`
is built from the files, plus the `watermark_text` field when
`watermarkText && watermarkText.trim()` is truthy. -/
def generateImageRequest (files : List WebFile) (watermarkText : Option String) :
    Except String Request :=
  if files.length = 0 then
    .error "At least one reference image is required"
  else if files.length > 5 then
    .error "Maximum 5 reference images allowed"
  else
    let base := files.map (fun file => FormField.mk "files" (.file file))
    let fields :=
      match watermarkText with
      | some s => if s != "" && trimJS s != "" then base ++ [⟨"watermark_text", .text s⟩] else base
      | none => base
    .ok { url := API_BASE ++ "/api/generate-image", method := "POST", fields := fields }

/-- Response handling of `generateImage`: a non-ok response throws
`error.detail || Generation failed: statusText`; an ok response resolves to
the base64 data URL built from the body's `image` field. -/
def generateImageHandle : FetchOutcome GenerateImageResponse → Except String String
  | .failure msg => .error msg
  | .errorResponse statusText detail =>
      .error (match detail with
        | some d => if d != "" then d else "Generation failed: " ++ statusText
        | none => "Generation failed: " ++ statusText)
  | .success body => .ok ("data:image/png;base64," ++ body.image)

/-- `generateImage` in `api.ts`, with an explicit trace of the requests it
issued: validation failures happen before the `fetch`, so their trace is
empty. -/
def generateImage (files : List WebFile) (watermarkText : Option String)
    (net : Request → FetchOutcome GenerateImageResponse) :
    Except String String × List Request :=
  match generateImageRequest files watermarkText with
  | .error e => (.error e, [])
  | .ok req => (generateImageHandle (net req), [req])

/-- Outcome of the `/health` fetch in `healthCheck`: the promise rejects, or
resolves to a response with the given `ok` flag. -/
inductive HealthFetch
  | failure (msg : String)
  | response (ok : Bool)
deriving DecidableEq, Repr

/-- The `try` body of `healthCheck`: await the fetch and return
`response.ok`; a rejected fetch propagates as an exception. -/
def healthCheckTry : HealthFetch → Except String Bool
  | .failure msg => .error msg
  | .response ok => .ok ok

/-- `healthCheck` in `api.ts`: the `catch` turns any exception into
`false`. -/
def healthCheck (o : HealthFetch) : Except String Bool :=
  match healthCheckTry o with
  | .ok b => .ok b
  | .error _ => .ok false

/-! ### DetectionScreen (`DetectionScreen.tsx`) -/

/-- The React state of `DetectionScreen`. -/
structure DetectionState where
  image : Option WebFile
  previewUrl : Option String
  isScanning : Bool
  scanComplete : Bool
  metadata : Option String
  verificationStep : Nat
deriving DecidableEq, Repr

/-- The hard-coded metadata string set at the end of the scan timeline. -/
def scanMetadata : String :=
  "PROVENANCE_KEY_VERIFIED: 0x92f...a12b\nTIMESTAMP: 2024-12-06T19:42:00Z\nORIGIN: NEXUS_TERMINAL_ALPHA\nINTEGRITY: 100%"

/-- `processFile` in `DetectionScreen.tsx`. -/
def processFile (file : WebFile) (s : DetectionState) : DetectionState :=
  { s with
    image := some file
    previewUrl := some (objectURL file)
    scanComplete := false
    metadata := none
    verificationStep := 0 }

/-- An effect performed by an event handler: an immediate state update, a
state update scheduled by `setTimeout` after `delay` milliseconds, or a
network request. -/
inductive Effect
  | setState (f : DetectionState → DetectionState)
  | timeout (delay : Nat) (f : DetectionState → DetectionState)
  | net (req : Request)

/-- `handleScan` in `DetectionScreen.tsx`: guard on `image`, two immediate
state updates, then the three-stage `setTimeout` simulation timeline. -/
def handleScan (s : DetectionState) : List Effect :=
  match s.image with
  | none => []
  | some _ =>
    [ .setState (fun s => { s with isScanning := true })
    , .setState (fun s => { s with verificationStep := 1 })
    , .timeout 1500 (fun s => { s with verificationStep := 2 })
    , .timeout 3000 (fun s => { s with verificationStep := 3 })
    , .timeout 4500 (fun s =>
        { s with isScanning := false, scanComplete := true, metadata := some scanMetadata }) ]

/-- The network requests among a list of effects. -/
def netRequests (effects : List Effect) : List Request :=
  effects.filterMap (fun e =>
    match e with
    | .net req => some req
    | _ => none)

/-- The state reached `t` milliseconds after the effects were issued:
immediate updates apply at once, a `setTimeout` update applies when its
delay has elapsed.  (The effect lists produced by the embedded handlers are
sorted by delay, so folding left applies timeouts in firing order.) -/
def runEffectsAt (effects : List Effect) (t : Nat) (s : DetectionState) : DetectionState :=
  effects.foldl
    (fun s e =>
      match e with
      | .setState f => f s
      | .timeout d f => if d ≤ t then f s else s
      | .net _ => s) s

/-- The `DetectionScreen` state `t` milliseconds after `handleScan` fires
from state `s`. -/
def scanStateAt (s : DetectionState) (t : Nat) : DetectionState :=
  runEffectsAt (handleScan s) t s

/-- The colour classification of `StepItem`: a step is completed when the
current step is past it, active when equal. -/
def stepCompleted (step current : Nat) : Bool := current > step

/-- `StepItem`'s active test. -/
def stepActive (step current : Nat) : Bool := current == step

/-! ### CreationScreen (`CreationScreen.tsx`) -/

/-- The React state of `CreationScreen`. -/
structure CreationState where
  sourceImages : List WebFile
  previewUrls : List String
  activeIndex : Nat
  secretData : String
  isProcessing : Bool
  isComplete : Bool
  generatedImageUrl : Option String
  error : Option String
deriving DecidableEq, Repr

/-- `handleFiles` in `CreationScreen.tsx`: with no free slot the handler
returns early; otherwise the incoming batch is truncated to the remaining
slots and appended (the early return `remainingSlots <= 0` is
`5 - length = 0` over `Nat`). -/
def handleFiles (files : List WebFile) (s : CreationState) : CreationState :=
  let remainingSlots := 5 - s.sourceImages.length
  if remainingSlots = 0 then s
  else
    let newFiles := files.take remainingSlots
    let newUrls := newFiles.map objectURL
    { s with
      sourceImages := s.sourceImages ++ newFiles
      previewUrls := s.previewUrls ++ newUrls
      activeIndex := if s.sourceImages.length = 0 then 0 else s.activeIndex
      isComplete := false }

/-- `handleEmbed` in `CreationScreen.tsx`: guard on an empty library, set
the processing flags, await `generateImage(sourceImages, secretData)`, and
either record the generated data URL and completion or record the error;
`finally` clears `isProcessing`. -/
def handleEmbed (net : Request → FetchOutcome GenerateImageResponse)
    (s : CreationState) : CreationState :=
  if s.sourceImages.length = 0 then s
  else
    let s1 := { s with isProcessing := true, isComplete := false, error := none }
    match (generateImage s.sourceImages (some s.secretData) net).1 with
    | .ok generatedUrl =>
        { s1 with generatedImageUrl := some generatedUrl, isComplete := true, isProcessing := false }
    | .error e =>
        { s1 with error := some e, isProcessing := false }

/-- `reset` in `CreationScreen.tsx`. -/
def resetCreation (_s : CreationState) : CreationState :=
  { sourceImages := []
    previewUrls := []
    activeIndex := 0
    secretData := ""
    isProcessing := false
    isComplete := false
    generatedImageUrl := none
    error := none }

/-- `array.filter((_, i) => i !== index)` — removal by position. -/
def removeAt {α : Type} (l : List α) (index : Nat) : List α :=
  (l.enum.filter (fun p => p.1 != index)).map Prod.snd

/-- `removeImage` in `CreationScreen.tsx`: filter the images and preview
URLs by index, then clamp `activeIndex` to `Math.max(0, newLength - 1)`
when it fell off the end (`Nat` subtraction is that maximum). -/
def removeImage (index : Nat) (s : CreationState) : CreationState :=
  let newImages := removeAt s.sourceImages index
  let newUrls := removeAt s.previewUrls index
  let s1 := { s with sourceImages := newImages, previewUrls := newUrls }
  if s1.activeIndex ≥ newImages.length then
    { s1 with activeIndex := newImages.length - 1 }
  else s1

/-- The image the `CreationScreen` render displays in the viewport:
`isComplete && generatedImageUrl ? generatedImageUrl : previewUrls[activeIndex]`. -/
def displayedImage (s : CreationState) : Option String :=
  match s.isComplete, s.generatedImageUrl with
  | true, some u => some u
  | _, _ => s.previewUrls.get? s.activeIndex

/-! ### App routes (`App.tsx`) -/

/-- The two screens of the frontend. -/
inductive Screen
  | creation
  | detection
deriving DecidableEq, Repr

/-- What a matched route renders: a screen, or a `Navigate ... replace`
redirect. -/
inductive RouteTarget
  | screen (s : Screen)
  | redirect (target : String)
deriving DecidableEq, Repr

/-- The `<Routes>` table of `App.tsx`. -/
def routes : List (String × RouteTarget) :=
  [ ("/", .redirect "/create")
  , ("/create", .screen .creation)
  , ("/verify", .screen .detection) ]

/-- Route matching: the first route whose path equals the location. -/
def resolveRoute (path : String) : Option RouteTarget :=
  (routes.find? (fun r => r.1 == path)).map Prod.snd

/-- The screen eventually rendered at a path, following redirects (with
fuel, since a redirect table could in principle loop). -/
def renderAt : Nat → String → Option Screen
  | 0, _ => none
  | fuel + 1, path =>
    match resolveRoute path with
    | some (.screen s) => some s
    | some (.redirect target) => renderAt fuel target
    | none => none

/-! ### Backend endpoints -/

/-- Modelled from the spec: the backend FastAPI service's Python source
(`main.py`, `ai_assistant.py`) is not among the sources — only its README
and API reference are.  The spec describes it as "a handful of thin HTTP
endpoints forwarding prompts/images to Gemini and streaming text back".
A request to the two endpoints the frontend uses carries the uploaded
images and the optional watermark text. -/
inductive BackendRequest
  | generateImage (files : List WebFile) (watermarkText : Option String)
  | verify (file : WebFile)
deriving DecidableEq, Repr

/-- Modelled from the spec: the prompt/images forwarded to the Gemini API
for a backend request. -/
structure GeminiCall where
  promptText : String
  images : List WebFile
deriving DecidableEq, Repr

/-- Modelled from the spec: how each thin endpoint forwards its inputs to
Gemini. -/
def backendForward : BackendRequest → GeminiCall
  | .generateImage files watermarkText =>
      { promptText := (match watermarkText with | some s => s | none => "")
        images := files }
  | .verify file => { promptText := "", images := [file] }

/-- Modelled from the spec: the backend's substantive output is whatever
the external Gemini oracle returns for the forwarded call; the endpoint
adds no local computation of its own. -/
def backendHandle (gemini : GeminiCall → String) (r : BackendRequest) : String :=
  gemini (backendForward r)

/-! ### Concrete sample data used by witnesses and counterexamples -/

/-- A sample uploaded file. -/
def fileA : WebFile := { name := "a.png", content := "A" }

/-- A second sample uploaded file, with different content. -/
def fileB : WebFile := { name := "b.png", content := "B" }

/-- A `CreationScreen` state with one uploaded image and empty metadata
text, as reached by `handleFiles [fileA]` from the initial state. -/
def exCreation : CreationState :=
  { sourceImages := [fileA]
    previewUrls := [objectURL fileA]
    activeIndex := 0
    secretData := ""
    isProcessing := false
    isComplete := false
    generatedImageUrl := none
    error := none }

/-- A backend oracle whose generated image is the base64 payload "AAA". -/
def netA : Request → FetchOutcome GenerateImageResponse :=
  fun _ => .success { image := "AAA", mock_mode := false, watermark_embedded := false }

/-- A backend oracle whose generated image is the base64 payload "BBB". -/
def netB : Request → FetchOutcome GenerateImageResponse :=
  fun _ => .success { image := "BBB", mock_mode := false, watermark_embedded := false }

/-- A sample Gemini oracle. -/
def geminiEx : GeminiCall → String :=
  fun c => "gemini-output:" ++ c.promptText

/-- The final `DetectionScreen` state of a scan of file `f` started from
state `s`: every `setTimeout` of the `handleScan` timeline has fired by
4500 ms. -/
def scanFinal (f : WebFile) (s : DetectionState) : DetectionState :=
  scanStateAt (processFile f s) 4500

/-- The request `generateImage [fileA] (some "wm")` builds. -/
def reqWm : Request :=
  { url := API_BASE ++ "/api/generate-image"
    method := "POST"
    fields := [⟨"files", .file fileA⟩, ⟨"watermark_text", .text "wm"⟩] }

/-- The `DetectionScreen` state right after `fileA` is uploaded. -/
def exDetection : DetectionState :=
  processFile fileA
    { image := none, previewUrl := none, isScanning := false,
      scanComplete := false, metadata := none, verificationStep := 0 }

/-- The `CreationScreen` state invariant of C8: at most 5 source images,
preview URLs in 1-1 correspondence with them, and an active index within
`Math.max(0, length - 1)` (over `Nat`, `length - 1` is that maximum). -/
abbrev CreationInv (s : CreationState) : Prop :=
  s.sourceImages.length ≤ 5 ∧
  s.previewUrls.length = s.sourceImages.length ∧
  s.activeIndex ≤ s.sourceImages.length - 1

/-! ### Claims -/

/-- C1: the verification flow is a pure UI simulation.  `handleScan` issues
no network request, and after the staged timeline completes the displayed
metadata is always the hard-coded `scanMetadata` string, so any two
uploaded files (from any two prior states) produce identical verification
results. -/
theorem scan_is_simulated (f g : WebFile) (s s' : DetectionState) :
    netRequests (handleScan (processFile f s)) = [] ∧
    (scanFinal f s).metadata = some scanMetadata ∧
    (scanFinal f s).metadata = (scanFinal g s').metadata ∧
    (scanFinal f s).scanComplete = (scanFinal g s').scanComplete ∧
    (scanFinal f s).isScanning = (scanFinal g s').isScanning ∧
    (scanFinal f s).verificationStep = (scanFinal g s').verificationStep :=
  ⟨rfl, rfl, rfl, rfl, rfl, rfl⟩

/-- C3 (spec-modelled): each backend endpoint's substantive output is the
external Gemini oracle's answer to the forwarded prompt/images; two
oracles agreeing on the forwarded call give the service identical
outputs. -/
theorem backend_delegates_to_gemini (gemini gemini' : GeminiCall → String)
    (r : BackendRequest)
    (h : gemini (backendForward r) = gemini' (backendForward r)) :
    backendHandle gemini r = gemini (backendForward r) ∧
    backendHandle gemini r = backendHandle gemini' r :=
  ⟨rfl, h⟩

/-- Witness for C3 at a concrete verify request and oracle. -/
theorem backend_delegates_to_gemini_witness :
    backendHandle geminiEx (.verify fileA) = geminiEx (backendForward (.verify fileA)) ∧
    backendHandle geminiEx (.verify fileA) = backendHandle geminiEx (.verify fileA) :=
  backend_delegates_to_gemini geminiEx geminiEx (.verify fileA) rfl

/-- C5: the route table has exactly the three entries `/` (a redirect to
`/create`), `/create` (the generation screen) and `/verify` (the
verification screen), and following the redirect, `/` renders the
generation screen. -/
theorem app_routes_exact :
    resolveRoute "/" = some (.redirect "/create") ∧
    resolveRoute "/create" = some (.screen .creation) ∧
    resolveRoute "/verify" = some (.screen .detection) ∧
    renderAt 2 "/" = some .creation ∧
    routes.map Prod.fst = ["/", "/create", "/verify"] ∧
    routes.filterMap
        (fun r => match r.2 with | .screen sc => some sc | .redirect _ => none)
      = [.creation, .detection] := by
  refine ⟨?_, ?_, ?_, ?_, ?_, ?_⟩ <;> decide

/-- C9: `healthCheck` never rejects: for every outcome of the `/health`
fetch it resolves to a boolean, which is `true` exactly when the fetch
succeeded with an ok status. -/
theorem healthCheck_never_rejects (o : HealthFetch) :
    ∃ b, healthCheck o = .ok b ∧ (b = true ↔ o = .response true) := by
  cases o with
  | failure msg => exact ⟨false, rfl, by simp⟩
  | response ok => exact ⟨ok, rfl, by cases ok <;> simp⟩

/-- Counterexample to C2: from the same one-image `CreationScreen` state,
two backends answering with different image payloads make `handleEmbed`
display different result images — the displayed result is not produced
locally, it depends on the backend's response. -/
theorem embed_depends_on_backend_cex :
    displayedImage (handleEmbed netA exCreation) = some ("data:image/png;base64," ++ "AAA") ∧
    displayedImage (handleEmbed netB exCreation) = some ("data:image/png;base64," ++ "BBB") ∧
    displayedImage (handleEmbed netA exCreation) ≠ displayedImage (handleEmbed netB exCreation) :=
  ⟨rfl, rfl, by decide⟩

/-- C2 amended: `handleEmbed` is not a local simulation — it awaits the
backend: whenever the backend answers a request with an ok response, the
displayed result image is the data URL built from that response's `image`
field. -/
theorem embed_result_from_backend (s : CreationState) (body : GenerateImageResponse)
    (h1 : 0 < s.sourceImages.length) (h2 : s.sourceImages.length ≤ 5) :
    displayedImage (handleEmbed (fun _ => .success body) s) =
      some ("data:image/png;base64," ++ body.image) := by
  obtain ⟨req, hreq⟩ :
      ∃ req, generateImageRequest s.sourceImages (some s.secretData) = .ok req := by
    unfold generateImageRequest
    rw [if_neg (by omega), if_neg (by omega)]
    exact ⟨_, rfl⟩
  unfold handleEmbed
  rw [if_neg (by omega)]
  simp [generateImage, hreq, generateImageHandle, displayedImage]

/-- Witness for C2's amended theorem at a concrete state and response. -/
theorem embed_result_from_backend_witness :
    0 < exCreation.sourceImages.length ∧ exCreation.sourceImages.length ≤ 5 ∧
    displayedImage
        (handleEmbed (fun _ => .success { image := "XYZ", mock_mode := false, watermark_embedded := true }) exCreation)
      = some ("data:image/png;base64," ++ "XYZ") :=
  ⟨by decide, by decide,
    embed_result_from_backend exCreation
      { image := "XYZ", mock_mode := false, watermark_embedded := true }
      (by decide) (by decide)⟩

/-- C7: `generateImage` rejects an empty file list and a list of more than
5 files with the corresponding error messages, in both cases issuing no
network request; for 1 to 5 files it issues exactly one POST request to
`/api/generate-image` and, on a successful response, resolves to
`"data:image/png;base64,"` concatenated with the response's `image`
field. -/
theorem generateImage_validation (files : List WebFile) (watermarkText : Option String)
    (net : Request → FetchOutcome GenerateImageResponse) :
    (files = [] →
      generateImage files watermarkText net
        = (.error "At least one reference image is required", [])) ∧
    (5 < files.length →
      generateImage files watermarkText net
        = (.error "Maximum 5 reference images allowed", [])) ∧
    (0 < files.length → files.length ≤ 5 →
      ∃ req, generateImageRequest files watermarkText = .ok req ∧
        req.url = API_BASE ++ "/api/generate-image" ∧
        req.method = "POST" ∧
        (generateImage files watermarkText net).2 = [req] ∧
        ∀ body, net req = .success body →
          (generateImage files watermarkText net).1
            = .ok ("data:image/png;base64," ++ body.image)) := by
  refine ⟨?_, ?_, ?_⟩
  · intro h
    subst h
    rfl
  · intro h
    unfold generateImage generateImageRequest
    rw [if_neg (by omega), if_pos (by omega)]
  · intro h1 h2
    obtain ⟨req, hreq, hurl, hmethod⟩ :
        ∃ req, generateImageRequest files watermarkText = .ok req ∧
          req.url = API_BASE ++ "/api/generate-image" ∧ req.method = "POST" := by
      unfold generateImageRequest
      rw [if_neg (by omega), if_neg (by omega)]
      exact ⟨_, rfl, rfl, rfl⟩
    refine ⟨req, hreq, hurl, hmethod, ?_, ?_⟩
    · simp [generateImage, hreq]
    · intro body hbody
      simp [generateImage, hreq, hbody, generateImageHandle]

/-- C4: the outgoing request of `generateImage` carries a `watermark_text`
form field exactly when the provided watermark text is non-empty after
trimming; when it is, the field carries that text verbatim. -/
theorem watermark_field_iff (files : List WebFile) (watermarkText : Option String)
    (req : Request)
    (h : generateImageRequest files watermarkText = .ok req) :
    ((∃ v, FormField.mk "watermark_text" v ∈ req.fields) ↔
        ∃ s, watermarkText = some s ∧ trimJS s ≠ "") ∧
    ∀ s, watermarkText = some s → trimJS s ≠ "" →
      FormField.mk "watermark_text" (FormValue.text s) ∈ req.fields := by
  have hbase : ∀ v, FormField.mk "watermark_text" v ∉
      files.map (fun file => FormField.mk "files" (FormValue.file file)) := by
    intro v hv
    simp only [List.mem_map] at hv
    obtain ⟨file, _, hfile⟩ := hv
    have := congrArg FormField.name hfile
    simp at this
  have h0 : ¬files.length = 0 := by
    intro hh
    rw [generateImageRequest, if_pos hh] at h
    exact absurd h (by simp)
  have h5 : ¬files.length > 5 := by
    intro hh
    rw [generateImageRequest, if_neg h0, if_pos hh] at h
    exact absurd h (by simp)
  rw [generateImageRequest, if_neg h0, if_neg h5] at h
  simp only [Except.ok.injEq] at h
  subst h
  cases watermarkText with
  | none =>
      constructor
      · constructor
        · rintro ⟨v, hv⟩
          exact absurd hv (hbase v)
        · rintro ⟨s, hs, _⟩
          cases hs
      · intro s hs
        cases hs
  | some s =>
      by_cases hc : (s != "" && trimJS s != "") = true
      · simp only [hc, if_pos]
        constructor
        · constructor
          · intro _
            refine ⟨s, rfl, ?_⟩
            simp only [Bool.and_eq_true, bne_iff_ne] at hc
            exact hc.2
          · intro _
            exact ⟨FormValue.text s, by simp⟩
        · intro s' hs' htr
          obtain rfl : s = s' := by injection hs'
          simp
      · rw [Bool.not_eq_true] at hc
        simp only [hc, Bool.false_eq_true, if_false]
        have hcontra : ∀ s' : String, s = s' → trimJS s' = "" := by
          intro s' hs'
          subst hs'
          simp only [Bool.and_eq_false_iff, bne_eq_false_iff_eq] at hc
          rcases hc with hc | hc
          · rw [hc]
            rfl
          · exact hc
        constructor
        · constructor
          · rintro ⟨v, hv⟩
            exact absurd hv (hbase v)
          · rintro ⟨s', hs', htr⟩
            obtain rfl : s = s' := by injection hs'
            exact absurd (hcontra s rfl) htr
        · intro s' hs' htr
          obtain rfl : s = s' := by injection hs'
          exact absurd (hcontra s rfl) htr

/-- Witness for C4 at a concrete file list and watermark text. -/
theorem watermark_field_iff_witness :
    trimJS "wm" ≠ "" ∧
    generateImageRequest [fileA] (some "wm") = .ok reqWm ∧
    FormField.mk "watermark_text" (FormValue.text "wm") ∈ reqWm.fields :=
  ⟨by decide, rfl,
    (watermark_field_iff [fileA] (some "wm") reqWm rfl).2 "wm" rfl (by decide)⟩

/-- C6: the scan timeline advances strictly in order — step 1 from the
start, step 2 from 1500 ms, step 3 from 3000 ms, and only at 4500 ms does
`scanComplete` become true and `isScanning` false; the step counter is
monotone (no step is skipped) and `scanComplete` and `isScanning` are
never simultaneously true.  (The scan button is only reachable with
`scanComplete` false, which `processFile` guarantees.) -/
theorem scan_timeline_order (s : DetectionState) (f : WebFile)
    (him : s.image = some f) (hsc : s.scanComplete = false) :
    (∀ t, t < 1500 → (scanStateAt s t).verificationStep = 1 ∧
        (scanStateAt s t).isScanning = true ∧ (scanStateAt s t).scanComplete = false) ∧
    (∀ t, 1500 ≤ t → t < 3000 → (scanStateAt s t).verificationStep = 2 ∧
        (scanStateAt s t).isScanning = true ∧ (scanStateAt s t).scanComplete = false) ∧
    (∀ t, 3000 ≤ t → t < 4500 → (scanStateAt s t).verificationStep = 3 ∧
        (scanStateAt s t).isScanning = true ∧ (scanStateAt s t).scanComplete = false) ∧
    (∀ t, 4500 ≤ t → (scanStateAt s t).verificationStep = 3 ∧
        (scanStateAt s t).isScanning = false ∧ (scanStateAt s t).scanComplete = true) ∧
    (∀ t, ¬((scanStateAt s t).scanComplete = true ∧ (scanStateAt s t).isScanning = true)) ∧
    (∀ t u, t ≤ u →
      (scanStateAt s t).verificationStep ≤ (scanStateAt s u).verificationStep) := by
  have key : ∀ t, scanStateAt s t =
      { s with
        isScanning := if 4500 ≤ t then false else true
        scanComplete := if 4500 ≤ t then true else s.scanComplete
        metadata := if 4500 ≤ t then some scanMetadata else s.metadata
        verificationStep := if 3000 ≤ t then 3 else if 1500 ≤ t then 2 else 1 } := by
    intro t
    rw [scanStateAt, handleScan, him]
    simp only [runEffectsAt, List.foldl]
    by_cases h15 : 1500 ≤ t <;> by_cases h30 : 3000 ≤ t <;> by_cases h45 : 4500 ≤ t <;>
      simp [h15, h30, h45, him]
  refine ⟨?_, ?_, ?_, ?_, ?_, ?_⟩
  · intro t ht
    rw [key]
    refine ⟨?_, ?_, ?_⟩ <;> simp only <;> split_ifs <;> first | rfl | omega | exact hsc
  · intro t h1 h2
    rw [key]
    refine ⟨?_, ?_, ?_⟩ <;> simp only <;> split_ifs <;> first | rfl | omega | exact hsc
  · intro t h1 h2
    rw [key]
    refine ⟨?_, ?_, ?_⟩ <;> simp only <;> split_ifs <;> first | rfl | omega | exact hsc
  · intro t h1
    rw [key]
    refine ⟨?_, ?_, ?_⟩ <;> simp only <;> split_ifs <;> first | rfl | omega
  · intro t
    rw [key]
    simp only
    split_ifs with h45
    · simp
    · simp [hsc]
  · intro t u htu
    rw [key, key]
    simp only
    split_ifs <;> omega

/-- Witness for C6 at a concrete uploaded file, sampled at the four stage
boundaries. -/
theorem scan_timeline_order_witness :
    (scanStateAt exDetection 0).verificationStep = 1 ∧
    (scanStateAt exDetection 1500).verificationStep = 2 ∧
    (scanStateAt exDetection 3000).verificationStep = 3 ∧
    (scanStateAt exDetection 4500).scanComplete = true ∧
    (scanStateAt exDetection 4500).isScanning = false := by
  obtain ⟨h1, h2, h3, h4, _, _⟩ := scan_timeline_order exDetection fileA rfl rfl
  exact ⟨(h1 0 (by omega)).1, (h2 1500 (by omega) (by omega)).1,
    (h3 3000 (by omega) (by omega)).1, (h4 4500 (by omega)).2.2, (h4 4500 (by omega)).2.1⟩

/-- Length of a filter of an enumeration that drops one index: one element
is lost exactly when the index lies in the enumerated range. -/
theorem length_enumFrom_filter_ne {α : Type} (l : List α) (n index : Nat) :
    ((List.enumFrom n l).filter (fun p => p.1 != index)).length =
      if n ≤ index ∧ index < n + l.length then l.length - 1 else l.length := by
  induction l generalizing n with
  | nil => simp
  | cons a l ih =>
    simp only [List.enumFrom, List.filter_cons]
    by_cases hn : n = index
    · subst hn
      simp only [bne_self_eq_false, Bool.false_eq_true, if_false, List.length_cons, ih]
      split_ifs <;> omega
    · have hb : ((n, a).1 != index) = true := by simpa using hn
      simp only [hb, if_true, List.length_cons, ih]
      split_ifs <;> omega

/-- `removeAt` drops exactly one element when the index is in range and
none otherwise. -/
theorem length_removeAt {α : Type} (l : List α) (index : Nat) :
    (removeAt l index).length =
      if index < l.length then l.length - 1 else l.length := by
  simp only [removeAt, List.length_map, List.enum, length_enumFrom_filter_ne]
  split_ifs <;> omega

/-- C8: `handleFiles`, `removeImage` and `reset` each preserve the
`CreationScreen` state invariant, and `handleFiles` truncates an incoming
batch to the free slots: the library never exceeds 5 images. -/
theorem creation_invariant_preserved (s : CreationState) (files : List WebFile)
    (index : Nat) (h : CreationInv s) :
    CreationInv (handleFiles files s) ∧
    CreationInv (removeImage index s) ∧
    CreationInv (resetCreation s) ∧
    (handleFiles files s).sourceImages.length
      = min 5 (s.sourceImages.length + files.length) := by
  obtain ⟨h5, hlen, hidx⟩ := h
  refine ⟨?_, ?_, ?_, ?_⟩
  · unfold handleFiles
    by_cases hslots : 5 - s.sourceImages.length = 0
    · rw [if_pos hslots]
      exact ⟨h5, hlen, hidx⟩
    · rw [if_neg hslots]
      refine ⟨?_, ?_, ?_⟩ <;>
        simp only [List.length_append, List.length_take, List.length_map] <;>
        first | omega | (split_ifs <;> omega)
  · simp only [removeImage, CreationInv]
    split_ifs with hge <;> simp only [length_removeAt] at * <;>
      split_ifs at * <;> omega
  · exact ⟨by simp [resetCreation], by simp [resetCreation], by simp [resetCreation]⟩
  · unfold handleFiles
    by_cases hslots : 5 - s.sourceImages.length = 0
    · rw [if_pos hslots]
      omega
    · rw [if_neg hslots]
      simp only [List.length_append, List.length_take]
      omega

/-- Witness for C8 at a concrete one-image state. -/
theorem creation_invariant_preserved_witness :
    CreationInv exCreation ∧
    (CreationInv (handleFiles [fileB] exCreation) ∧
     CreationInv (removeImage 0 exCreation) ∧
     CreationInv (resetCreation exCreation) ∧
     (handleFiles [fileB] exCreation).sourceImages.length
       = min 5 (exCreation.sourceImages.length + [fileB].length)) :=
  ⟨by decide, creation_invariant_preserved exCreation [fileB] 0 (by decide)⟩

/-- Witness for C7: the three branches at concrete inputs. -/
theorem generateImage_validation_witness :
    generateImage [] none netA
      = (.error "At least one reference image is required", []) ∧
    generateImage [fileA, fileA, fileA, fileA, fileA, fileA] none netA
      = (.error "Maximum 5 reference images allowed", []) ∧
    (generateImage [fileA] none netA).1 = .ok ("data:image/png;base64," ++ "AAA") := by
  refine ⟨(generateImage_validation [] none netA).1 rfl,
    (generateImage_validation [fileA, fileA, fileA, fileA, fileA, fileA] none netA).2.1 (by decide),
    ?_⟩
  obtain ⟨req, hreq, hurl, hmethod, htrace, hok⟩ :=
    (generateImage_validation [fileA] none netA).2.2 (by decide) (by decide)
  exact hok { image := "AAA", mock_mode := false, watermark_embedded := false } rfl

